import Mathlib

/-!
Verification development for the mvn-tui repository (Go).

The definitions below are a shallow embedding of the program's data model
and operations, translated from the Go sources:

* `maven/project.go`      — `Project`, `Module`, `Profile`, `ToggleModule`,
  `ToggleProfile`, `GetSelectedModules`, `GetEnabledProfiles`
* `maven/command.go` (the full variant of the file, with the output-control
  options)                — `BuildOptions`, `Command`, `BuildCommand`
* `maven/executor.go`     — `ExecutionResult`, `Execute`, `ExecuteInteractive`
* `ui/model.go`, `ui/handlers.go` — `Model`, `handleEnter`, `executeTask`,
  `handleExecutionComplete`
* `ui/project_creation.go`, `ui/module_creation.go` — wizard state and
  `GetValidationErrors`

Go strings are modelled as Lean `String` where only whole-string equality
matters and as `List Char` where character-level reasoning is needed
(validation / trimming).  Go's in-place mutation through pointers is
modelled by state passing: each handler takes the model and returns the
updated model.  File-system and process effects are modelled by an explicit
oracle of outcomes passed to the function, so the functions stay executable
and deterministic for each fixed oracle value.
-/

/-- Joins a list of strings with commas; models Go `strings.Join(xs, ",")`. -/
def joinComma (xs : List String) : String := String.intercalate "," xs

/-- Joins a list of strings with spaces; models Go `strings.Join(xs, " ")`. -/
def joinSpace (xs : List String) : String := String.intercalate " " xs

/-- Module of a Maven project; from `maven/project.go` (`Module`). -/
structure MavenModule where
  Name : String
  Path : String
  Selected : Bool
deriving DecidableEq, Repr

/-- Profile of a Maven project; from `maven/project.go` (`Profile`). -/
structure MavenProfile where
  ID : String
  Enabled : Bool
deriving DecidableEq, Repr

/-- Maven project; from `maven/project.go` (`Project`). -/
structure Project where
  RootPath : String
  PomPath : String
  GroupID : String
  ArtifactID : String
  Version : String
  Packaging : String
  Modules : List MavenModule
  Profiles : List MavenProfile
  Executable : String
  HasSpringBoot : Bool
deriving DecidableEq, Repr

/-- Names of the selected modules, in declaration order; from
`maven/project.go` (`GetSelectedModules`, a loop that appends the name of
every module whose `Selected` flag is set). -/
def GetSelectedModules (p : Project) : List String :=
  (p.Modules.filter (fun m => m.Selected)).map (fun m => m.Name)

/-- IDs of the enabled profiles, in declaration order; from
`maven/project.go` (`GetEnabledProfiles`). -/
def GetEnabledProfiles (p : Project) : List String :=
  (p.Profiles.filter (fun prof => prof.Enabled)).map (fun prof => prof.ID)

/-- Negates the `Selected` flag of the element at position `i`, leaving the
rest of the list unchanged; models the in-place assignment
`p.Modules[index].Selected = !p.Modules[index].Selected`. -/
def toggleSelectedAt : List MavenModule → Nat → List MavenModule
  | [], _ => []
  | m :: ms, 0 => { m with Selected := !m.Selected } :: ms
  | m :: ms, Nat.succ i => m :: toggleSelectedAt ms i

/-- Negates the `Enabled` flag of the element at position `i`; models the
in-place assignment `p.Profiles[index].Enabled = !p.Profiles[index].Enabled`. -/
def toggleEnabledAt : List MavenProfile → Nat → List MavenProfile
  | [], _ => []
  | pr :: ps, 0 => { pr with Enabled := !pr.Enabled } :: ps
  | pr :: ps, Nat.succ i => pr :: toggleEnabledAt ps i

/-- From `maven/project.go` (`ToggleModule`): guarded by
`index >= 0 && index < len(p.Modules)`; out of range is a no-op.  The Go
`int` index is modelled as `Int` so that negative indices are expressible. -/
def ToggleModule (p : Project) (index : Int) : Project :=
  if 0 ≤ index ∧ index < (p.Modules.length : Int) then
    { p with Modules := toggleSelectedAt p.Modules index.toNat }
  else
    p

/-- From `maven/project.go` (`ToggleProfile`): same guard for profiles. -/
def ToggleProfile (p : Project) (index : Int) : Project :=
  if 0 ≤ index ∧ index < (p.Profiles.length : Int) then
    { p with Profiles := toggleEnabledAt p.Profiles index.toNat }
  else
    p

/-- Maven build options; from `maven/command.go` (`BuildOptions`), full
variant with the output-control booleans. -/
structure BuildOptions where
  SkipTests : Bool
  Offline : Bool
  UpdateSnapshots : Bool
  Threads : String
  Debug : Bool
  Verbose : Bool
  Quiet : Bool
  Errors : Bool
  BatchMode : Bool
  ShowVersion : Bool
deriving DecidableEq, Repr

/-- Maven command; from `maven/command.go` (`Command`). -/
structure Command where
  Executable : String
  Args : List String
  PrettyArgs : String
deriving DecidableEq, Repr

/-- From `maven/command.go` (`Command.String`):
`fmt.Sprintf("%s %s", c.Executable, c.PrettyArgs)`. -/
def commandString (c : Command) : String :=
  c.Executable ++ " " ++ c.PrettyArgs

/-- From `maven/command.go` (`BuildCommand`), full variant.  The argument
vector is assembled by sequential conditional appends, in source order:
profiles, module restriction, output-control flag (debug / verbose / quiet
with if/else-if precedence), `-e`, `-B`, `-V`, `-DskipTests`, `-o`, `-U`,
`-T` pair, then the goals. -/
def BuildCommand (project : Project) (goals : List String) (options : BuildOptions) : Command :=
  let args : List String := []
  let profiles := GetEnabledProfiles project
  let args := if profiles.length > 0 then args ++ ["-P", joinComma profiles] else args
  let selectedModules := GetSelectedModules project
  let args :=
    if selectedModules.length > 0 ∧ selectedModules.length < project.Modules.length then
      args ++ ["-pl", joinComma selectedModules]
    else args
  let args :=
    if options.Debug then args ++ ["-X"]
    else if options.Verbose then args ++ ["-v"]
    else if options.Quiet then args ++ ["-q"]
    else args
  let args := if options.Errors then args ++ ["-e"] else args
  let args := if options.BatchMode then args ++ ["-B"] else args
  let args := if options.ShowVersion then args ++ ["-V"] else args
  let args := if options.SkipTests then args ++ ["-DskipTests"] else args
  let args := if options.Offline then args ++ ["-o"] else args
  let args := if options.UpdateSnapshots then args ++ ["-U"] else args
  let args := if options.Threads ≠ "" then args ++ ["-T", options.Threads] else args
  let args := args ++ goals
  { Executable := project.Executable, Args := args, PrettyArgs := joinSpace args }

/-! Spec-side description of the argument assembly order (§4.1 of the spec).
Each segment below is written from the spec's words; the refinement theorem
for C6 compares their concatenation with `BuildCommand` as translated from
the source. -/

/-- Spec §4.1 item 1: enabled profiles, if any, as a single comma-joined flag. -/
def specProfilesFlag (project : Project) : List String :=
  if (GetEnabledProfiles project).length > 0 then
    ["-P", joinComma (GetEnabledProfiles project)]
  else []

/-- Spec §4.1 item 2: selected modules, emitted only if the selected set is a
strict, non-empty subset of all modules. -/
def specModulesFlag (project : Project) : List String :=
  if (GetSelectedModules project).length > 0 ∧
      (GetSelectedModules project).length < project.Modules.length then
    ["-pl", joinComma (GetSelectedModules project)]
  else []

/-- Spec §4.1 item 3: output-verbosity flag with precedence
debug > verbose > quiet; at most one of the three. -/
def specVerbosityFlag (options : BuildOptions) : List String :=
  if options.Debug then ["-X"]
  else if options.Verbose then ["-v"]
  else if options.Quiet then ["-q"]
  else []

/-- Spec §4.1 item 4: independent flags in fixed order
(show-error-detail, batch mode, show-version). -/
def specErrorsFlag (options : BuildOptions) : List String :=
  if options.Errors then ["-e"] else []

/-- Spec §4.1 item 4 (second flag). -/
def specBatchFlag (options : BuildOptions) : List String :=
  if options.BatchMode then ["-B"] else []

/-- Spec §4.1 item 4 (third flag). -/
def specShowVersionFlag (options : BuildOptions) : List String :=
  if options.ShowVersion then ["-V"] else []

/-- Spec §4.1 item 5: build-behavior flags (skip-tests, offline,
update-snapshots, thread count only if non-empty). -/
def specSkipTestsFlag (options : BuildOptions) : List String :=
  if options.SkipTests then ["-DskipTests"] else []

/-- Spec §4.1 item 5 (offline flag). -/
def specOfflineFlag (options : BuildOptions) : List String :=
  if options.Offline then ["-o"] else []

/-- Spec §4.1 item 5 (update-snapshots flag). -/
def specUpdateSnapshotsFlag (options : BuildOptions) : List String :=
  if options.UpdateSnapshots then ["-U"] else []

/-- Spec §4.1 item 5 (thread-count pair, only if non-empty). -/
def specThreadsFlag (options : BuildOptions) : List String :=
  if options.Threads ≠ "" then ["-T", options.Threads] else []

/-- Spec §4.1: the full fixed assembly order, ending with the goal tokens
appended verbatim. -/
def specArgsOrder (project : Project) (goals : List String) (options : BuildOptions) :
    List String :=
  specProfilesFlag project ++ specModulesFlag project ++ specVerbosityFlag options ++
    specErrorsFlag options ++ specBatchFlag options ++ specShowVersionFlag options ++
    specSkipTestsFlag options ++ specOfflineFlag options ++
    specUpdateSnapshotsFlag options ++ specThreadsFlag options ++ goals

/-! Process-execution layer, from `maven/executor.go`.  The interactions
with the operating system (pipe setup, spawn, wait) are modelled by an
explicit outcome value so that the error-handling structure of the Go code
stays a total function. -/

/-- Result of `exec.Cmd.Wait` (or `Run`): a clean zero exit, an
`*exec.ExitError` carrying the exit status of a process that ran and exited
non-zero, or any other error (a wait error that is not an exit-status
error). -/
inductive WaitResult
  | success
  | exitError (code : Int)
  | otherErr (msg : String)
deriving DecidableEq, Repr

/-- Outcome of the OS interactions performed by `Execute`: a failure to set
up the stdout pipe, a failure to set up the stderr pipe, a failure to start
the process, or a completed run with its wait result, the captured output
lines (merged from the two stream-drain goroutines), and the measured
duration. -/
inductive ProcOutcome
  | stdoutPipeErr (msg : String)
  | stderrPipeErr (msg : String)
  | startErr (msg : String)
  | ran (wait : WaitResult) (lines : List String) (dur : Int)
deriving DecidableEq, Repr

/-- Result of executing a Maven command; from `maven/executor.go`
(`ExecutionResult`).  The Go `error` field is modelled as an optional
message, `time.Duration` and `time.Time` as integers. -/
structure ExecutionResult where
  Command : Command
  ExitCode : Int
  Duration : Int
  StartTime : Int
  Output : List String
  Error : Option String
deriving DecidableEq, Repr

/-- From `maven/executor.go` (`Execute`): initializes the result with the
command, the start time and an empty output; returns early with `Error` set
on a pipe-setup or spawn failure; otherwise, after the wait, a
`*exec.ExitError` only sets `ExitCode`, any other wait error only sets
`Error`, and a clean exit sets `ExitCode = 0`.  The second component is the
Go function's returned `error` value. -/
def Execute (cmd : Command) (startTime : Int) (outcome : ProcOutcome) :
    ExecutionResult × Option String :=
  let result : ExecutionResult :=
    { Command := cmd, ExitCode := 0, Duration := 0, StartTime := startTime,
      Output := [], Error := none }
  match outcome with
  | .stdoutPipeErr e => ({ result with Error := some e }, some e)
  | .stderrPipeErr e => ({ result with Error := some e }, some e)
  | .startErr e => ({ result with Error := some e }, some e)
  | .ran wait lines dur =>
    let result := { result with Output := lines, Duration := dur }
    match wait with
    | .success => ({ result with ExitCode := 0 }, none)
    | .exitError c => ({ result with ExitCode := c }, none)
    | .otherErr e => ({ result with Error := some e }, none)

/-- From `maven/executor.go` (`ExecuteInteractive`): runs the process with
the terminal attached (no capture), then applies the same wait-error
handling as `Execute`. -/
def ExecuteInteractive (cmd : Command) (startTime : Int) (wait : WaitResult)
    (dur : Int) : ExecutionResult × Option String :=
  let result : ExecutionResult :=
    { Command := cmd, ExitCode := 0, Duration := dur, StartTime := startTime,
      Output := [], Error := none }
  match wait with
  | .success => ({ result with ExitCode := 0 }, none)
  | .exitError c => ({ result with ExitCode := c }, none)
  | .otherErr e => ({ result with Error := some e }, none)

/-! Wizard validation, from `ui/project_creation.go` and
`ui/module_creation.go`.  Field values are modelled as `List Char` because
the validation reasons about individual characters (trimming, regular
expression classes). -/

/-- Character class `[a-zA-Z]` of the validation regexes (`a`–`z` is 97–122,
`A`–`Z` is 65–90). -/
def isAlphaGo (c : Char) : Bool :=
  decide ((97 ≤ c.toNat ∧ c.toNat ≤ 122) ∨ (65 ≤ c.toNat ∧ c.toNat ≤ 90))

/-- Character class `[0-9]` (48–57). -/
def isDigitGo (c : Char) : Bool :=
  decide (48 ≤ c.toNat ∧ c.toNat ≤ 57)

/-- Bracket class `[a-zA-Z0-9._-]` of the validation regexes: letters,
digits, period (46), underscore (95), hyphen (45). -/
def isIdChar (c : Char) : Bool :=
  isAlphaGo c || isDigitGo c || decide (c.toNat = 46) || decide (c.toNat = 95) ||
    decide (c.toNat = 45)

/-- Go `unicode.IsSpace`: `\t \n \v \f \r` (9–13), space (32), NEL (133),
NBSP (160), and the Unicode `White_Space` code points 5760, 8192–8202,
8232, 8233, 8239, 8287, 12288. -/
def isSpaceGo (c : Char) : Bool :=
  decide ((9 ≤ c.toNat ∧ c.toNat ≤ 13) ∨ c.toNat = 32 ∨ c.toNat = 133 ∨
    c.toNat = 160 ∨ c.toNat = 5760 ∨ (8192 ≤ c.toNat ∧ c.toNat ≤ 8202) ∨
    c.toNat = 8232 ∨ c.toNat = 8233 ∨ c.toNat = 8239 ∨ c.toNat = 8287 ∨
    c.toNat = 12288)

/-- Leading-whitespace trim (one half of Go `strings.TrimSpace`). -/
def trimLeftGo (s : List Char) : List Char := s.dropWhile isSpaceGo

/-- Trailing-whitespace trim (the other half of Go `strings.TrimSpace`). -/
def trimRightGo (s : List Char) : List Char :=
  (s.reverse.dropWhile isSpaceGo).reverse

/-- Go `strings.TrimSpace`: drops whitespace from both ends. -/
def trimSpaceGo (s : List Char) : List Char := trimRightGo (trimLeftGo s)

/-- Go `strings.Contains(v, " ")` for the single-character needle `" "`:
true iff a space character occurs in `v`. -/
def containsSpace (s : List Char) : Bool := s.any (fun c => decide (c.toNat = 32))

/-- Regex `^[a-zA-Z][a-zA-Z0-9._-]*$` (`validArtifactIDPattern` in
`ui/project_creation.go`, `moduleValidArtifactIDPattern` in
`ui/module_creation.go`): a letter followed by bracket-class characters. -/
def artifactIDMatches : List Char → Bool
  | [] => false
  | c :: cs => isAlphaGo c && cs.all isIdChar

/-- Regex `^[a-zA-Z][a-zA-Z0-9._-]*(\.[a-zA-Z][a-zA-Z0-9._-]*)*$`
(`validGroupIDPattern` / `moduleValidGroupIDPattern`).  The period and the
letters already belong to the bracket class of the leading factor, so every
word produced by the trailing `(\.segment)*` group is again a letter
followed by bracket-class characters, and conversely the group may be
taken zero times; the regex therefore denotes exactly the same language as
`artifactIDMatches`, which this recognizer implements directly (the lemma
`groupIDMatches_append_dot` below checks the closure property). -/
def groupIDMatches : List Char → Bool
  | [] => false
  | c :: cs => isAlphaGo c && cs.all isIdChar

/-- Field values of the project-creation wizard, from
`ui/project_creation.go` (`inputs[0]`–`inputs[4]`). -/
structure ProjectCreationInputs where
  folderName : List Char
  organization : List Char
  projectID : List Char
  version : List Char
  basePackage : List Char
deriving DecidableEq, Repr

/-- Field values of the module-creation wizard, from
`ui/module_creation.go` (`inputs[0]`–`inputs[3]`). -/
structure ModuleCreationInputs where
  moduleName : List Char
  organization : List Char
  moduleID : List Char
  version : List Char
deriving DecidableEq, Repr

/-- Folder-name check of `GetValidationErrors` in `ui/project_creation.go`:
required only. -/
def pcFolderNameErrors (i : ProjectCreationInputs) : List String :=
  let v := trimSpaceGo i.folderName
  if v = [] then ["Folder Name is required"] else []

/-- Organization check: required, then group-ID pattern. -/
def pcOrganizationErrors (i : ProjectCreationInputs) : List String :=
  let v := trimSpaceGo i.organization
  if v = [] then ["Organization is required"]
  else if groupIDMatches v = false then
    ["Organization must start with a letter and contain only letters, digits, dots, hyphens, and underscores (e.g., com.example)"]
  else []

/-- Project-ID check: required, then the explicit space check, then the
artifact-ID pattern. -/
def pcProjectIDErrors (i : ProjectCreationInputs) : List String :=
  let v := trimSpaceGo i.projectID
  if v = [] then ["Project ID is required"]
  else if containsSpace v = true then
    ["Project ID cannot contain spaces (use hyphens or underscores instead)"]
  else if artifactIDMatches v = false then
    ["Project ID must start with a letter and contain only letters, digits, hyphens, underscores, and periods"]
  else []

/-- Version check: required only. -/
def pcVersionErrors (i : ProjectCreationInputs) : List String :=
  let v := trimSpaceGo i.version
  if v = [] then ["Version is required"] else []

/-- Base-package check: required, then group-ID pattern. -/
def pcBasePackageErrors (i : ProjectCreationInputs) : List String :=
  let v := trimSpaceGo i.basePackage
  if v = [] then ["Base Package is required"]
  else if groupIDMatches v = false then
    ["Base Package must be a valid Java package name (e.g., com.example)"]
  else []

/-- From `ui/project_creation.go` (`GetValidationErrors`): the error
messages accumulated per field, in source order. -/
def GetValidationErrorsPC (i : ProjectCreationInputs) : List String :=
  pcFolderNameErrors i ++ pcOrganizationErrors i ++ pcProjectIDErrors i ++
    pcVersionErrors i ++ pcBasePackageErrors i

/-- Module-name check of `GetValidationErrors` in `ui/module_creation.go`:
required, then space check, then artifact-ID pattern. -/
def mcModuleNameErrors (i : ModuleCreationInputs) : List String :=
  let v := trimSpaceGo i.moduleName
  if v = [] then ["Module Name is required"]
  else if containsSpace v = true then
    ["Module Name cannot contain spaces (use hyphens or underscores instead)"]
  else if artifactIDMatches v = false then
    ["Module Name must start with a letter and contain only letters, digits, hyphens, underscores, and periods"]
  else []

/-- Organization check of the module wizard: optional, but must match the
group pattern when non-empty. -/
def mcOrganizationErrors (i : ModuleCreationInputs) : List String :=
  let v := trimSpaceGo i.organization
  if v ≠ [] ∧ groupIDMatches v = false then
    ["Organization must start with a letter and contain only letters, digits, dots, hyphens, and underscores (e.g., com.example)"]
  else []

/-- Module-ID check of the module wizard: optional, but when non-empty it
gets the space check and then the artifact pattern. -/
def mcModuleIDErrors (i : ModuleCreationInputs) : List String :=
  let v := trimSpaceGo i.moduleID
  if v ≠ [] then
    if containsSpace v = true then
      ["Module ID cannot contain spaces (use hyphens or underscores instead)"]
    else if artifactIDMatches v = false then
      ["Module ID must start with a letter and contain only letters, digits, hyphens, underscores, and periods"]
    else []
  else []

/-- From `ui/module_creation.go` (`GetValidationErrors`): the module wizard
validates only the module name, organization and module ID (the version
field is not validated). -/
def GetValidationErrorsMC (i : ModuleCreationInputs) : List String :=
  mcModuleNameErrors i ++ mcOrganizationErrors i ++ mcModuleIDErrors i

/-! Session state machine, from `ui/model.go` and `ui/handlers.go`.  The
purely presentational sub-state of the bubbles widgets (list layout,
viewport, text-input focus, window sizes) is not modelled; the list cursors
that the handlers read (`tasksList.Index()`, `historyList.Index()`,
`dependencyList.Index()`) are kept as integer fields of the respective
state records. -/

/-- The six screens; from `ui/model.go` (`ViewMode` constants). -/
inductive ViewMode
  | ViewMain
  | ViewLogs
  | ViewHistory
  | ViewProjectCreation
  | ViewModuleCreation
  | ViewDependencyManager
deriving DecidableEq, Repr

/-- A task of the tasks pane; from `ui/model.go` (`Task`). -/
structure UiTask where
  Name : String
  Description : String
  Goals : List String
deriving DecidableEq, Repr

/-- Does `needle` occur at the start of `hay`?  Helper for the Go
`strings.Contains` model. -/
def listStartsWith : List Char → List Char → Bool
  | _, [] => true
  | [], _ :: _ => false
  | c :: cs, d :: ds => c == d && listStartsWith cs ds

/-- Go `strings.Contains(hay, needle)`: does `needle` occur as a contiguous
substring of `hay`? -/
def listContainsSub : List Char → List Char → Bool
  | [], needle => listStartsWith [] needle
  | c :: cs, needle => listStartsWith (c :: cs) needle || listContainsSub cs needle

/-- A Maven archetype preset; from `ui/project_creation.go` (`Archetype`). -/
structure Archetype where
  Name : String
  Description : String
  GroupID : String
  ArtifactID : String
  Version : String
deriving DecidableEq, Repr

/-- From `ui/project_creation.go` (`CommonArchetypes`). -/
def CommonArchetypes : List Archetype :=
  [{ Name := "Java Application", Description := "Standard Java console application",
     GroupID := "org.apache.maven.archetypes", ArtifactID := "maven-archetype-quickstart",
     Version := "1.4" },
   { Name := "Spring Boot App", Description := "Spring Boot web application",
     GroupID := "org.springframework.boot", ArtifactID := "spring-boot-starter-parent",
     Version := "3.2.0" },
   { Name := "Web Application", Description := "Java web application (WAR)",
     GroupID := "org.apache.maven.archetypes", ArtifactID := "maven-archetype-webapp",
     Version := "1.4" }]

/-- Project-creation wizard state; from `ui/project_creation.go`
(`ProjectCreation`): the five field values and the selected archetype.
The `selectedJavaVersion` field is modelled from the spec: the wizard's
Java-version picker (`GetSelectedJavaVersion` and the runtime-version
scanner backing it, spec §6) is referenced by `ui/handlers.go` but its
source file is not among the given sources, so the selection is kept as the
chosen version string. -/
structure ProjectCreation where
  inputs : ProjectCreationInputs
  selectedArch : Nat
  selectedJavaVersion : String
deriving DecidableEq, Repr

/-- Placeholders of the five project-creation inputs, from
`NewProjectCreation`. -/
def pcPlaceholder : Nat → String
  | 0 => "my-app"
  | 1 => "com.example"
  | 2 => "my-app"
  | 3 => "1.0-SNAPSHOT"
  | _ => "com.example"

/-- From `ui/project_creation.go` (`getValueOrDefault`): the trimmed value,
or the placeholder when the trimmed value is empty. -/
def pcGetValueOrDefault (v : List Char) (placeholder : String) : String :=
  let t := trimSpaceGo v
  if t = [] then placeholder else String.mk t

/-- From `ui/project_creation.go` (`GetFolderName`). -/
def pcGetFolderName (pc : ProjectCreation) : String :=
  pcGetValueOrDefault pc.inputs.folderName (pcPlaceholder 0)

/-- From `ui/project_creation.go` (`GetArtifactId`). -/
def pcGetArtifactId (pc : ProjectCreation) : String :=
  pcGetValueOrDefault pc.inputs.projectID (pcPlaceholder 2)

/-- Modelled from the spec: `GetSelectedJavaVersion().Version` of the
wizard's Java-version picker, whose source file is not among the given
sources; the picked version string is carried in the wizard state. -/
def pcGetSelectedJavaVersionStr (pc : ProjectCreation) : String :=
  pc.selectedJavaVersion

/-- From `ui/project_creation.go` (`IsValid`). -/
def pcIsValid (pc : ProjectCreation) : Bool :=
  (GetValidationErrorsPC pc.inputs).length == 0

/-- From `ui/project_creation.go` (`BuildCreateCommand`). -/
def BuildCreateCommand (pc : ProjectCreation) : Command :=
  let arch := CommonArchetypes.getD pc.selectedArch
    { Name := "", Description := "", GroupID := "", ArtifactID := "", Version := "" }
  let groupId := pcGetValueOrDefault pc.inputs.organization (pcPlaceholder 1)
  let artifactId := pcGetValueOrDefault pc.inputs.projectID (pcPlaceholder 2)
  let version := pcGetValueOrDefault pc.inputs.version (pcPlaceholder 3)
  let packageName := pcGetValueOrDefault pc.inputs.basePackage (pcPlaceholder 4)
  { Executable := "mvn",
    Args := ["archetype:generate", "-DinteractiveMode=false",
      "-DgroupId=" ++ groupId, "-DartifactId=" ++ artifactId,
      "-Dversion=" ++ version, "-Dpackage=" ++ packageName,
      "-DarchetypeGroupId=" ++ arch.GroupID,
      "-DarchetypeArtifactId=" ++ arch.ArtifactID,
      "-DarchetypeVersion=" ++ arch.Version,
      "-Dmaven.compiler.source=1.8", "-Dmaven.compiler.target=1.8"],
    PrettyArgs := "archetype:generate -DgroupId=" ++ groupId ++
      " -DartifactId=" ++ artifactId }

/-- Module-creation wizard state; from `ui/module_creation.go`
(`ModuleCreation`). -/
structure ModuleCreation where
  inputs : ModuleCreationInputs
deriving DecidableEq, Repr

/-- From `ui/module_creation.go` (`IsValid`). -/
def mcIsValid (mc : ModuleCreation) : Bool :=
  (GetValidationErrorsMC mc.inputs).length == 0

/-- From `ui/module_creation.go` (`GetModuleName`): trimmed value or the
default `my-module`. -/
def mcGetModuleName (mc : ModuleCreation) : String :=
  let t := trimSpaceGo mc.inputs.moduleName
  if t = [] then "my-module" else String.mk t

/-- From `ui/module_creation.go` (`BuildCreateModuleCommand`); the
`projectRoot` parameter is accepted and, as in the source, unused. -/
def BuildCreateModuleCommand (mc : ModuleCreation) (projectRoot : String) : Command :=
  let moduleName := mcGetModuleName mc
  let groupId :=
    let t := trimSpaceGo mc.inputs.organization
    if t = [] then "com.example" else String.mk t
  let artifactId :=
    let t := trimSpaceGo mc.inputs.moduleID
    if t = [] then moduleName else String.mk t
  let version :=
    let t := trimSpaceGo mc.inputs.version
    if t = [] then "1.0-SNAPSHOT" else String.mk t
  { Executable := "mvn",
    Args := ["archetype:generate", "-DinteractiveMode=false",
      "-DgroupId=" ++ groupId, "-DartifactId=" ++ artifactId,
      "-Dversion=" ++ version, "-Dpackage=" ++ groupId,
      "-DarchetypeGroupId=org.apache.maven.archetypes",
      "-DarchetypeArtifactId=maven-archetype-quickstart",
      "-DarchetypeVersion=1.4",
      "-Dmaven.compiler.source=1.8", "-Dmaven.compiler.target=1.8"],
    PrettyArgs := "Creating module: " ++ moduleName }

/-- A Maven dependency; from `ui/dependency_manager.go` (`Dependency`). -/
structure UiDependency where
  GroupID : String
  ArtifactID : String
  Version : String
  Scope : String
deriving DecidableEq, Repr

/-- A curated dependency entry; from `ui/dependency_manager.go`
(`CommonDependency`). -/
structure CommonDependency where
  Name : String
  Description : String
  Dep : UiDependency
deriving DecidableEq, Repr

/-- Dependency-manager state; from `ui/dependency_manager.go`
(`DependencyManager`): the curated list, the list cursor, the four custom
inputs, and the mode string (`common` or `custom`). -/
structure DependencyManager where
  commonDeps : List CommonDependency
  listIndex : Int
  customGroupID : String
  customArtifactID : String
  customVersion : String
  customScope : String
  mode : String
  focusedInput : Nat
deriving DecidableEq, Repr

/-- From `ui/dependency_manager.go` (`IsCustomMode`). -/
def dmIsCustomMode (dm : DependencyManager) : Bool := dm.mode == "custom"

/-- From `ui/dependency_manager.go` (`GetSelectedDependency`), on a value
receiver (the assignment to `dm.mode` inside it has no effect outside; the
function is effectively pure). -/
def dmGetSelectedDependency (dm : DependencyManager) : UiDependency :=
  if dmIsCustomMode dm then
    { GroupID := if dm.customGroupID = "" then "org.example" else dm.customGroupID,
      ArtifactID := if dm.customArtifactID = "" then "my-library" else dm.customArtifactID,
      Version := dm.customVersion, Scope := dm.customScope }
  else if h : 0 ≤ dm.listIndex ∧ dm.listIndex < (dm.commonDeps.length : Int) then
    if dm.listIndex = (dm.commonDeps.length : Int) - 1 then
      { GroupID := "", ArtifactID := "", Version := "", Scope := "" }
    else
      (dm.commonDeps.get ⟨dm.listIndex.toNat, by omega⟩).Dep
  else
    { GroupID := "", ArtifactID := "", Version := "", Scope := "" }

/-- The dependency snippet rendered into the log view; from
`ui/handlers.go` (`handleDependencyAddition`, the `depXML` builder). -/
def mkDepXML (dep : UiDependency) : String :=
  "    <dependency>\n" ++
  "      <groupId>" ++ dep.GroupID ++ "</groupId>\n" ++
  "      <artifactId>" ++ dep.ArtifactID ++ "</artifactId>\n" ++
  (if dep.Version ≠ "" then "      <version>" ++ dep.Version ++ "</version>\n" else "") ++
  (if dep.Scope ≠ "" then "      <scope>" ++ dep.Scope ++ "</scope>\n" else "") ++
  "    </dependency>"

/-- A value returned by a handler in place of a `tea.Cmd`: either nothing,
or the instruction to run the given Maven command in the streaming runner
(`runMavenCommand`) or the interactive runner
(`runInteractiveMavenCommand`). -/
inductive TeaCmd
  | none
  | runMaven (cmd : Command)
  | runInteractive (cmd : Command)
deriving DecidableEq, Repr

/-- The session state; from `ui/model.go` (`Model`).  `tasksIndex` and
`historyIndex` stand for `tasksList.Index()` and `historyList.Index()`. -/
structure Model where
  project : Project
  tasks : List UiTask
  options : BuildOptions
  history : List ExecutionResult
  logBuffer : List String
  currentView : ViewMode
  tasksIndex : Int
  historyIndex : Int
  projectCreation : Option ProjectCreation
  moduleCreation : Option ModuleCreation
  dependencyManager : Option DependencyManager
  focusedPane : Int
  lastResult : Option ExecutionResult
  running : Bool
  startedWithoutProject : Bool
  pendingModuleName : String
  pendingJavaVersion : String
deriving DecidableEq, Repr

/-- From `ui/handlers.go` (`executeTask`): builds the command, then the
interactive path for tasks whose name contains `Run` (log buffer reset, no
`running` flag), or the streaming path (log header, `running := true`);
both force the Logs screen and hand the command to the runner. -/
def executeTask (m : Model) (t : UiTask) : Model × TeaCmd :=
  let cmd := BuildCommand m.project t.Goals m.options
  if listContainsSub t.Name.data "Run".data then
    ({ m with
       logBuffer := [],
       currentView := ViewMode.ViewLogs },
      TeaCmd.runInteractive cmd)
  else
    ({ m with
       logBuffer := ["Executing: " ++ commandString cmd, ""],
       running := true,
       currentView := ViewMode.ViewLogs },
      TeaCmd.runMaven cmd)

/-- From `ui/handlers.go` (`handleProjectCreation`). -/
def handleProjectCreation (m : Model) : Model × TeaCmd :=
  match m.projectCreation with
  | Option.none => (m, TeaCmd.none)
  | some pc =>
    if pcIsValid pc = false then (m, TeaCmd.none)
    else
      let cmd := BuildCreateCommand pc
      let folderName := pcGetFolderName pc
      let artifactId := pcGetArtifactId pc
      let javaVersion := pcGetSelectedJavaVersionStr pc
      let lb := ["Creating project: " ++ commandString cmd,
        "Folder name: " ++ folderName,
        "Maven artifact ID: " ++ artifactId,
        "Java version: " ++ javaVersion, ""]
      let m1 := { m with
        logBuffer := lb,
        running := true,
        currentView := ViewMode.ViewLogs }
      let m2 := if folderName ≠ artifactId then
          { m1 with pendingModuleName := folderName }
        else m1
      let m3 := { m2 with pendingJavaVersion := javaVersion }
      (m3, TeaCmd.runMaven cmd)

/-- From `ui/handlers.go` (`handleModuleCreation`). -/
def handleModuleCreation (m : Model) : Model × TeaCmd :=
  match m.moduleCreation with
  | Option.none => (m, TeaCmd.none)
  | some mc =>
    if mcIsValid mc = false then (m, TeaCmd.none)
    else if (match m.dependencyManager with
        | some dm => dmIsCustomMode dm
        | Option.none => false) then (m, TeaCmd.none)
    else
      let cmd := BuildCreateModuleCommand mc m.project.RootPath
      let moduleName := mcGetModuleName mc
      let lb := ["Creating module: " ++ moduleName,
        "Command: " ++ commandString cmd, ""]
      ({ m with
         logBuffer := lb,
         running := true,
         currentView := ViewMode.ViewLogs,
         pendingModuleName := moduleName },
        TeaCmd.runMaven cmd)

/-- From `ui/handlers.go` (`handleDependencyAddition`): selecting the
`Custom Dependency` sentinel switches to custom mode; otherwise the chosen
dependency is rendered as a descriptor snippet into the log buffer and the
Logs screen is shown; no command is ever issued. -/
def handleDependencyAddition (m : Model) : Model × TeaCmd :=
  match m.dependencyManager with
  | Option.none => (m, TeaCmd.none)
  | some dm =>
    if dmIsCustomMode dm = false ∧
        dm.listIndex = (dm.commonDeps.length : Int) - 1 then
      let dm2 := { dm with mode := "custom", focusedInput := 0 }
      ({ m with dependencyManager := some dm2 }, TeaCmd.none)
    else
      let dep := dmGetSelectedDependency dm
      let base := ["Add this dependency to your pom.xml:", "", mkDepXML dep, "",
        "Copy the above XML and add it to the <dependencies> section of your pom.xml",
        "", "Dependency details:",
        "  GroupID: " ++ dep.GroupID, "  ArtifactID: " ++ dep.ArtifactID]
      let base := if dep.Version ≠ "" then base ++ ["  Version: " ++ dep.Version] else base
      let base := if dep.Scope ≠ "" then base ++ ["  Scope: " ++ dep.Scope] else base
      ({ m with
         logBuffer := base,
         currentView := ViewMode.ViewLogs }, TeaCmd.none)

/-- From `ui/handlers.go` (`handleEnter`): dispatch on the current screen.
On the Main screen with the tasks pane focused, a valid cursor starts
`executeTask` unconditionally — there is no check of `m.running` anywhere
on this path (and the `enter` case of `Update` in `ui/model.go` calls
`handleEnter` unconditionally as well). -/
def handleEnter (m : Model) : Model × TeaCmd :=
  if m.currentView = ViewMode.ViewMain ∧ m.focusedPane = 1 then
    if h : 0 ≤ m.tasksIndex ∧ m.tasksIndex < (m.tasks.length : Int) then
      executeTask m (m.tasks.get ⟨m.tasksIndex.toNat, by omega⟩)
    else (m, TeaCmd.none)
  else if m.currentView = ViewMode.ViewHistory then
    if h : 0 ≤ m.historyIndex ∧ m.historyIndex < (m.history.length : Int) then
      let result := m.history.get
        ⟨m.history.length - 1 - m.historyIndex.toNat, by omega⟩
      ({ m with
         logBuffer := ["Re-executing: " ++ commandString result.Command, ""],
         running := true,
         currentView := ViewMode.ViewLogs },
        TeaCmd.runMaven result.Command)
    else (m, TeaCmd.none)
  else if m.currentView = ViewMode.ViewProjectCreation ∧ m.projectCreation.isSome then
    handleProjectCreation m
  else if m.currentView = ViewMode.ViewModuleCreation ∧ m.moduleCreation.isSome then
    handleModuleCreation m
  else if m.currentView = ViewMode.ViewDependencyManager ∧ m.dependencyManager.isSome then
    handleDependencyAddition m
  else (m, TeaCmd.none)

/-- Go `filepath.Join` restricted to two clean relative components. -/
def joinPath (a b : String) : String := a ++ "/" ++ b

/-- The completion summary line of `handleExecutionComplete`:
`fmt.Sprintf("Completed with exit code %d in %v", ...)`; the duration
rendering is abstracted to the decimal form of the integer duration. -/
def completionLine (r : ExecutionResult) : String :=
  "Completed with exit code " ++ toString r.ExitCode ++ " in " ++
    toString r.Duration

/-- The error lines appended when the result carries an execution-machinery
error. -/
def executionErrorLines (r : ExecutionResult) : List String :=
  match r.Error with
  | some e => ["", "Error: " ++ e]
  | Option.none => []

/-- Outcomes of the file-system side effects attempted during completion
handling: `maven.UpdateJavaVersion`, `os.Rename`, `maven.AddModuleToPom`
(each `none` = success, `some msg` = the error), and `maven.LoadProject`
(`some p` = the reloaded project, `none` = a load error). -/
structure FsEffects where
  updateJavaVersionErr : Option String
  renameErr : Option String
  addModuleErr : Option String
  loadProjectResult : Option Project
deriving DecidableEq, Repr

/-- Post-creation block of `handleExecutionComplete` in `ui/handlers.go`
(taken when a project-creation wizard is active, the exit code is 0 and the
Logs screen is current): best-effort Java-version rewrite, then best-effort
directory rename, then the pending marker and the wizard state are
cleared. -/
def postCreationSteps (m : Model) (pc : ProjectCreation) (fx : FsEffects) : Model :=
  let artifactId := pcGetArtifactId pc
  let projectPath := joinPath m.project.RootPath artifactId
  let desiredFolderName := m.pendingModuleName
  let m1 :=
    if m.pendingJavaVersion ≠ "" then
      let lbA := m.logBuffer ++
        ["", "Updating Java version to " ++ m.pendingJavaVersion ++ " in pom.xml..."]
      let lbB :=
        match fx.updateJavaVersionErr with
        | some e => lbA ++
            ["Warning: Failed to update Java version: " ++ e,
             "You may need to manually update maven.compiler.source and maven.compiler.target"]
        | Option.none => lbA ++ ["✓ Java version updated to " ++ m.pendingJavaVersion]
      { m with
        logBuffer := lbB,
        pendingJavaVersion := "" }
    else m
  let m2 :=
    if desiredFolderName ≠ "" ∧ desiredFolderName ≠ artifactId then
      let newPath := joinPath m.project.RootPath desiredFolderName
      let lbA := m1.logBuffer ++
        ["", "Renaming project directory from \x27" ++ artifactId ++
          "\x27 to \x27" ++ desiredFolderName ++ "\x27..."]
      let lbB :=
        match fx.renameErr with
        | some e => lbA ++
            ["Warning: Failed to rename directory: " ++ e,
             "You can manually rename \x27" ++ artifactId ++ "\x27 to \x27" ++
               desiredFolderName ++ "\x27"]
        | Option.none => lbA ++
            ["✓ Project directory renamed to \x27" ++ desiredFolderName ++ "\x27",
             "✓ Project created successfully in \x27" ++ newPath ++ "\x27"]
      { m1 with logBuffer := lbB }
    else
      { m1 with logBuffer := m1.logBuffer ++
          ["✓ Project created successfully in \x27" ++ projectPath ++ "\x27"] }
  { m2 with
    pendingModuleName := "",
    projectCreation := Option.none }

/-- Post-module-creation block of `handleExecutionComplete` (taken when a
pending module name is set and the exit code is 0): attempt the descriptor
edit; on success, attempt the project reload; clear the pending marker in
either case. -/
def postModuleSteps (m : Model) (fx : FsEffects) : Model :=
  let m1 := { m with logBuffer := m.logBuffer ++
    ["", "Adding module \x27" ++ m.pendingModuleName ++ "\x27 to parent pom.xml..."] }
  match fx.addModuleErr with
  | some e =>
    let lbB := m1.logBuffer ++
      ["Warning: Failed to add module to pom.xml: " ++ e,
       "You\x27ll need to manually add it to the <modules> section."]
    { m1 with
      logBuffer := lbB,
      pendingModuleName := "" }
  | Option.none =>
    let m2 := { m1 with logBuffer := m1.logBuffer ++
      ["✓ Module \x27" ++ m.pendingModuleName ++
        "\x27 successfully added to parent pom.xml"] }
    let m3 :=
      match fx.loadProjectResult with
      | some proj =>
        { m2 with
          project := proj,
          logBuffer := m2.logBuffer ++ ["✓ Project reloaded with new module"] }
      | Option.none => m2
    { m3 with pendingModuleName := "" }

/-- Dispatch of the two post-processing blocks, with the source's guard
structure: the creation block requires an active project-creation wizard,
exit code 0 and the Logs screen; otherwise the module block requires a
non-empty pending module name and exit code 0; otherwise nothing happens
(in particular, a non-empty pending marker survives a failed command). -/
def handlePostExecution (m : Model) (r : ExecutionResult) (fx : FsEffects) : Model :=
  match m.projectCreation with
  | some pc =>
    if r.ExitCode = 0 ∧ m.currentView = ViewMode.ViewLogs then
      postCreationSteps m pc fx
    else if m.pendingModuleName ≠ "" ∧ r.ExitCode = 0 then
      postModuleSteps m fx
    else m
  | Option.none =>
    if m.pendingModuleName ≠ "" ∧ r.ExitCode = 0 then
      postModuleSteps m fx
    else m

/-- From `ui/handlers.go` (`handleExecutionComplete`): clear `running`,
record the result, append it to the history, force the Logs screen, append
the captured output, the optional error lines and the completion summary to
the log buffer, then run the post-processing blocks. -/
def handleExecutionComplete (m : Model) (r : ExecutionResult) (fx : FsEffects) :
    Model :=
  let m1 := { m with
    running := false,
    lastResult := some r,
    history := m.history ++ [r],
    currentView := ViewMode.ViewLogs,
    logBuffer := m.logBuffer ++ r.Output }
  let m2 :=
    match r.Error with
    | some e => { m1 with logBuffer := m1.logBuffer ++ ["", "Error: " ++ e] }
    | Option.none => m1
  let m3 := { m2 with logBuffer := m2.logBuffer ++ ["", completionLine r] }
  handlePostExecution m3 r fx

/-- An options record with every toggle off. -/
def exOptionsDefault : BuildOptions :=
  { SkipTests := false,
    Offline := false,
    UpdateSnapshots := false,
    Threads := "",
    Debug := false,
    Verbose := false,
    Quiet := false,
    Errors := false,
    BatchMode := false,
    ShowVersion := false }

/-- A small loaded project. -/
def exProjectPlain : Project :=
  { RootPath := "r",
    PomPath := "r/pom.xml",
    GroupID := "g",
    ArtifactID := "a",
    Version := "1",
    Packaging := "jar",
    Modules := [],
    Profiles := [],
    Executable := "mvn",
    HasSpringBoot := false }

/-- A session state with an execution in flight, the Main screen active and
the tasks pane focused on the `Clean` task: the situation named by the
single-flight invariant. -/
def exModelRunning : Model :=
  { project := exProjectPlain,
    tasks := [{ Name := "Clean", Description := "Remove build artifacts", Goals := ["clean"] }],
    options := exOptionsDefault,
    history := [],
    logBuffer := ["Executing: mvn install", ""],
    currentView := ViewMode.ViewMain,
    tasksIndex := 0,
    historyIndex := 0,
    projectCreation := Option.none,
    moduleCreation := Option.none,
    dependencyManager := Option.none,
    focusedPane := 1,
    lastResult := Option.none,
    running := true,
    startedWithoutProject := false,
    pendingModuleName := "",
    pendingJavaVersion := "" }

/-- A session state just after a module-creation command was issued: the
pending side-effect marker is set, no project-creation wizard is active. -/
def exModelPendingModule : Model :=
  { project := exProjectPlain,
    tasks := [],
    options := exOptionsDefault,
    history := [],
    logBuffer := ["Creating module: new-mod", ""],
    currentView := ViewMode.ViewLogs,
    tasksIndex := 0,
    historyIndex := 0,
    projectCreation := Option.none,
    moduleCreation := Option.none,
    dependencyManager := Option.none,
    focusedPane := 1,
    lastResult := Option.none,
    running := true,
    startedWithoutProject := false,
    pendingModuleName := "new-mod",
    pendingJavaVersion := "" }

/-- A completion event for a failed command (exit code 1, no
execution-machinery error). -/
def exFailedResult : ExecutionResult :=
  { Command := { Executable := "mvn", Args := ["archetype:generate"], PrettyArgs := "archetype:generate" },
    ExitCode := 1,
    Duration := 5,
    StartTime := 0,
    Output := ["BUILD FAILURE"],
    Error := Option.none }

/-- File-system effects where every attempted side effect succeeds. -/
def exFxAllOk : FsEffects :=
  { updateJavaVersionErr := Option.none,
    renameErr := Option.none,
    addModuleErr := Option.none,
    loadProjectResult := Option.none }

theorem ite_extend (c : Prop) [Decidable c] (a x : List String) :
    (if c then a ++ x else a) = a ++ (if c then x else []) := by
  split <;> simp

theorem ite_extend_pair (c : Prop) [Decidable c] (a x y : List String) :
    (if c then a ++ x else a ++ y) = a ++ (if c then x else y) := by
  split <;> rfl

/-- Decomposition of the built argument vector into the spec's fixed
segments.  Shared helper for the command-builder claims. -/
theorem buildCommand_args_decomposition (project : Project) (goals : List String)
    (options : BuildOptions) :
    (BuildCommand project goals options).Args = specArgsOrder project goals options := by
  simp only [BuildCommand, ite_extend, ite_extend_pair]
  simp only [specArgsOrder, specProfilesFlag, specModulesFlag,
    specVerbosityFlag, specErrorsFlag, specBatchFlag, specShowVersionFlag,
    specSkipTestsFlag, specOfflineFlag, specUpdateSnapshotsFlag, specThreadsFlag,
    List.nil_append, List.append_assoc]

/-! Membership characterizations for the individual argument segments. -/

theorem mem_specProfilesFlag (t : String) (p : Project) :
    t ∈ specProfilesFlag p ↔
      (GetEnabledProfiles p).length > 0 ∧
        (t = "-P" ∨ t = joinComma (GetEnabledProfiles p)) := by
  unfold specProfilesFlag
  split <;> simp [*]

theorem mem_specModulesFlag (t : String) (p : Project) :
    t ∈ specModulesFlag p ↔
      ((GetSelectedModules p).length > 0 ∧
          (GetSelectedModules p).length < p.Modules.length) ∧
        (t = "-pl" ∨ t = joinComma (GetSelectedModules p)) := by
  unfold specModulesFlag
  split <;> simp [*]

theorem mem_specVerbosityFlag (t : String) (o : BuildOptions) :
    t ∈ specVerbosityFlag o ↔
      ((o.Debug = true ∧ t = "-X") ∨
        (o.Debug = false ∧ o.Verbose = true ∧ t = "-v") ∨
        (o.Debug = false ∧ o.Verbose = false ∧ o.Quiet = true ∧ t = "-q")) := by
  unfold specVerbosityFlag
  split_ifs <;> simp_all

theorem mem_specErrorsFlag (t : String) (o : BuildOptions) :
    t ∈ specErrorsFlag o ↔ (o.Errors = true ∧ t = "-e") := by
  unfold specErrorsFlag
  split <;> simp_all

theorem mem_specBatchFlag (t : String) (o : BuildOptions) :
    t ∈ specBatchFlag o ↔ (o.BatchMode = true ∧ t = "-B") := by
  unfold specBatchFlag
  split <;> simp_all

theorem mem_specShowVersionFlag (t : String) (o : BuildOptions) :
    t ∈ specShowVersionFlag o ↔ (o.ShowVersion = true ∧ t = "-V") := by
  unfold specShowVersionFlag
  split <;> simp_all

theorem mem_specSkipTestsFlag (t : String) (o : BuildOptions) :
    t ∈ specSkipTestsFlag o ↔ (o.SkipTests = true ∧ t = "-DskipTests") := by
  unfold specSkipTestsFlag
  split <;> simp_all

theorem mem_specOfflineFlag (t : String) (o : BuildOptions) :
    t ∈ specOfflineFlag o ↔ (o.Offline = true ∧ t = "-o") := by
  unfold specOfflineFlag
  split <;> simp_all

theorem mem_specUpdateSnapshotsFlag (t : String) (o : BuildOptions) :
    t ∈ specUpdateSnapshotsFlag o ↔ (o.UpdateSnapshots = true ∧ t = "-U") := by
  unfold specUpdateSnapshotsFlag
  split <;> simp_all

theorem mem_specThreadsFlag (t : String) (o : BuildOptions) :
    t ∈ specThreadsFlag o ↔ (o.Threads ≠ "" ∧ (t = "-T" ∨ t = o.Threads)) := by
  unfold specThreadsFlag
  split <;> simp_all

theorem mem_buildCommand_args (t : String) (p : Project) (g : List String)
    (o : BuildOptions) :
    t ∈ (BuildCommand p g o).Args ↔
      (t ∈ specProfilesFlag p ∨ t ∈ specModulesFlag p ∨ t ∈ specVerbosityFlag o ∨
        t ∈ specErrorsFlag o ∨ t ∈ specBatchFlag o ∨ t ∈ specShowVersionFlag o ∨
        t ∈ specSkipTestsFlag o ∨ t ∈ specOfflineFlag o ∨
        t ∈ specUpdateSnapshotsFlag o ∨ t ∈ specThreadsFlag o ∨ t ∈ g) := by
  rw [buildCommand_args_decomposition]
  simp [specArgsOrder]

/-- Length of the selected-module filter is positive iff some module is
selected. -/
theorem filter_selected_pos_iff (ms : List MavenModule) :
    0 < (ms.filter (fun m => m.Selected)).length ↔ ∃ m ∈ ms, m.Selected = true := by
  induction ms with
  | nil => simp
  | cons a l ih =>
    by_cases h : a.Selected <;> simp [List.filter_cons, h, ih]

/-- Length of the selected-module filter is short of the module count iff
some module is unselected. -/
theorem filter_selected_lt_iff (ms : List MavenModule) :
    (ms.filter (fun m => m.Selected)).length < ms.length ↔
      ∃ m ∈ ms, m.Selected = false := by
  induction ms with
  | nil => simp
  | cons a l ih =>
    by_cases h : a.Selected
    · simp [List.filter_cons, h, ih, Nat.succ_lt_succ_iff]
    · simp only [List.filter_cons, h, Bool.false_eq_true, if_false, List.length_cons]
      constructor
      · intro _
        exact ⟨a, List.mem_cons_self a l, by simp [h]⟩
      · intro _
        exact Nat.lt_succ_of_le (List.length_filter_le _ l)

/-- C6: the argument vector produced by `BuildCommand` is ordered exactly as
the spec's fixed assembly sequence — profiles flag, module-restriction flag,
single verbosity flag, `-e`, `-B`, `-V`, `-DskipTests`, `-o`, `-U`, the
thread-count pair, and finally the goal tokens verbatim and in the order
supplied.  The output is a function of the option record alone, so the order
cannot depend on the order in which the user toggled any options. -/
theorem c6_fixed_argument_order (project : Project) (goals : List String)
    (options : BuildOptions) :
    (BuildCommand project goals options).Args = specArgsOrder project goals options :=
  buildCommand_args_decomposition project goals options

/-- C4: the `-pl` module-restriction flag (followed by the comma-joined names
of the included modules, in declaration order) appears in the built argument
vector iff the included module set is a non-empty strict subset of the
project's modules.  The hypotheses rule out the degenerate collisions where
the caller passes the literal token `-pl` as a goal, a thread count, or a
profile name, which would make the raw token appear for unrelated reasons. -/
theorem c4_module_restriction_flag (p : Project) (g : List String) (o : BuildOptions)
    (hg : "-pl" ∉ g) (hP : joinComma (GetEnabledProfiles p) ≠ "-pl")
    (hT : o.Threads ≠ "-pl") :
    (("-pl" ∈ (BuildCommand p g o).Args) ↔
        ((∃ m ∈ p.Modules, m.Selected = true) ∧ (∃ m ∈ p.Modules, m.Selected = false))) ∧
      (((∃ m ∈ p.Modules, m.Selected = true) ∧ (∃ m ∈ p.Modules, m.Selected = false)) →
        ∃ pre suf, (BuildCommand p g o).Args =
          pre ++ ["-pl", joinComma (GetSelectedModules p)] ++ suf) := by
  have hcond : ((GetSelectedModules p).length > 0 ∧
      (GetSelectedModules p).length < p.Modules.length) ↔
      ((∃ m ∈ p.Modules, m.Selected = true) ∧ (∃ m ∈ p.Modules, m.Selected = false)) := by
    unfold GetSelectedModules
    rw [List.length_map]
    exact and_congr (filter_selected_pos_iff p.Modules) (filter_selected_lt_iff p.Modules)
  constructor
  · rw [mem_buildCommand_args, mem_specProfilesFlag, mem_specModulesFlag,
      mem_specVerbosityFlag, mem_specErrorsFlag, mem_specBatchFlag,
      mem_specShowVersionFlag, mem_specSkipTestsFlag, mem_specOfflineFlag,
      mem_specUpdateSnapshotsFlag, mem_specThreadsFlag, ← hcond]
    simp [hg, Ne.symm hP, Ne.symm hT]
  · intro hsel
    rw [buildCommand_args_decomposition]
    unfold specArgsOrder
    refine ⟨specProfilesFlag p, ?_, ?_⟩
    · exact specVerbosityFlag o ++ specErrorsFlag o ++ specBatchFlag o ++
        specShowVersionFlag o ++ specSkipTestsFlag o ++ specOfflineFlag o ++
        specUpdateSnapshotsFlag o ++ specThreadsFlag o ++ g
    · rw [specModulesFlag, if_pos (hcond.mpr hsel)]
      simp [List.append_assoc]

/-- C4 witness: a project with one selected and one unselected module, a goal
list free of the literal `-pl` token. -/
theorem c4_module_restriction_flag_witness :
    ("-pl" ∉ (["package"] : List String)) ∧
      ("-pl" ∈ (BuildCommand
        { RootPath := "r", PomPath := "r/pom.xml", GroupID := "g", ArtifactID := "a",
          Version := "1", Packaging := "jar",
          Modules := [{ Name := "m1", Path := "r/m1", Selected := true },
                      { Name := "m2", Path := "r/m2", Selected := false }],
          Profiles := [], Executable := "mvn", HasSpringBoot := false }
        ["package"]
        { SkipTests := false, Offline := false, UpdateSnapshots := false, Threads := "",
          Debug := false, Verbose := false, Quiet := false, Errors := false,
          BatchMode := false, ShowVersion := false }).Args) :=
  ⟨by decide,
    (c4_module_restriction_flag
      { RootPath := "r", PomPath := "r/pom.xml", GroupID := "g", ArtifactID := "a",
        Version := "1", Packaging := "jar",
        Modules := [{ Name := "m1", Path := "r/m1", Selected := true },
                    { Name := "m2", Path := "r/m2", Selected := false }],
        Profiles := [], Executable := "mvn", HasSpringBoot := false }
      ["package"]
      { SkipTests := false, Offline := false, UpdateSnapshots := false, Threads := "",
        Debug := false, Verbose := false, Quiet := false, Errors := false,
        BatchMode := false, ShowVersion := false }
      (by decide) (by decide) (by decide)).1.mpr
      ⟨⟨{ Name := "m1", Path := "r/m1", Selected := true }, by decide, rfl⟩,
       ⟨{ Name := "m2", Path := "r/m2", Selected := false }, by decide, rfl⟩⟩⟩

/-- C5: at most one output-verbosity flag is emitted; `-X` appears iff
`Debug` is set, `-v` iff `Debug` is unset and `Verbose` set, `-q` iff
`Debug` and `Verbose` are unset and `Quiet` set.  As in C4, the hypotheses
exclude the caller smuggling one of the three literal tokens in through
goals, thread count, profile names, or module names. -/
theorem c5_verbosity_precedence (p : Project) (g : List String) (o : BuildOptions)
    (hgX : "-X" ∉ g) (hgv : "-v" ∉ g) (hgq : "-q" ∉ g)
    (hPX : joinComma (GetEnabledProfiles p) ≠ "-X")
    (hPv : joinComma (GetEnabledProfiles p) ≠ "-v")
    (hPq : joinComma (GetEnabledProfiles p) ≠ "-q")
    (hMX : joinComma (GetSelectedModules p) ≠ "-X")
    (hMv : joinComma (GetSelectedModules p) ≠ "-v")
    (hMq : joinComma (GetSelectedModules p) ≠ "-q")
    (hTX : o.Threads ≠ "-X") (hTv : o.Threads ≠ "-v") (hTq : o.Threads ≠ "-q") :
    (("-X" ∈ (BuildCommand p g o).Args) ↔ o.Debug = true) ∧
      (("-v" ∈ (BuildCommand p g o).Args) ↔ (o.Debug = false ∧ o.Verbose = true)) ∧
      (("-q" ∈ (BuildCommand p g o).Args) ↔
        (o.Debug = false ∧ o.Verbose = false ∧ o.Quiet = true)) := by
  refine ⟨?_, ?_, ?_⟩ <;>
    rw [mem_buildCommand_args, mem_specProfilesFlag, mem_specModulesFlag,
      mem_specVerbosityFlag, mem_specErrorsFlag, mem_specBatchFlag,
      mem_specShowVersionFlag, mem_specSkipTestsFlag, mem_specOfflineFlag,
      mem_specUpdateSnapshotsFlag, mem_specThreadsFlag]
  · simp [hgX, Ne.symm hPX, Ne.symm hMX, Ne.symm hTX]
  · simp [hgv, Ne.symm hPv, Ne.symm hMv, Ne.symm hTv]
  · simp [hgq, Ne.symm hPq, Ne.symm hMq, Ne.symm hTq]

/-- C5 witness: with `Debug` and `Quiet` both set and `Verbose` unset, only
the debug flag appears. -/
theorem c5_verbosity_precedence_witness :
    ("-X" ∈ (BuildCommand
      { RootPath := "r", PomPath := "r/pom.xml", GroupID := "g", ArtifactID := "a",
        Version := "1", Packaging := "jar", Modules := [], Profiles := [],
        Executable := "mvn", HasSpringBoot := false }
      ["clean"]
      { SkipTests := false, Offline := false, UpdateSnapshots := false, Threads := "",
        Debug := true, Verbose := false, Quiet := true, Errors := false,
        BatchMode := false, ShowVersion := false }).Args) ∧
    ("-q" ∉ (BuildCommand
      { RootPath := "r", PomPath := "r/pom.xml", GroupID := "g", ArtifactID := "a",
        Version := "1", Packaging := "jar", Modules := [], Profiles := [],
        Executable := "mvn", HasSpringBoot := false }
      ["clean"]
      { SkipTests := false, Offline := false, UpdateSnapshots := false, Threads := "",
        Debug := true, Verbose := false, Quiet := true, Errors := false,
        BatchMode := false, ShowVersion := false }).Args) := by
  have h := c5_verbosity_precedence
    { RootPath := "r", PomPath := "r/pom.xml", GroupID := "g", ArtifactID := "a",
      Version := "1", Packaging := "jar", Modules := [], Profiles := [],
      Executable := "mvn", HasSpringBoot := false }
    ["clean"]
    { SkipTests := false, Offline := false, UpdateSnapshots := false, Threads := "",
      Debug := true, Verbose := false, Quiet := true, Errors := false,
      BatchMode := false, ShowVersion := false }
    (by decide) (by decide) (by decide) (by decide) (by decide) (by decide)
    (by decide) (by decide) (by decide) (by decide) (by decide) (by decide)
  exact ⟨h.1.mpr rfl, fun hq => by simpa using h.2.2.mp hq⟩

/-- C9: `BuildCommand` is deterministic — equal inputs yield equal commands,
component for component — and its pretty rendering is exactly the
space-joined argument vector; in this state-passing embedding of the Go
code the function takes the project, goals and options by value and returns
only the `Command`, so it cannot mutate them (the Go body performs no write
through the `*Project` pointer, which the translation mirrors by never
rebuilding the project). -/
theorem c9_buildCommand_deterministic (p1 p2 : Project) (g1 g2 : List String)
    (o1 o2 : BuildOptions) (hp : p1 = p2) (hg : g1 = g2) (ho : o1 = o2) :
    BuildCommand p1 g1 o1 = BuildCommand p2 g2 o2 ∧
      (BuildCommand p1 g1 o1).Executable = p1.Executable ∧
      (BuildCommand p1 g1 o1).PrettyArgs = joinSpace (BuildCommand p1 g1 o1).Args := by
  subst hp; subst hg; subst ho
  exact ⟨rfl, rfl, rfl⟩

/-- C9 witness: concrete equal inputs. -/
theorem c9_buildCommand_deterministic_witness :
    BuildCommand
        { RootPath := "r", PomPath := "r/pom.xml", GroupID := "g", ArtifactID := "a",
          Version := "1", Packaging := "jar", Modules := [], Profiles := [],
          Executable := "mvn", HasSpringBoot := false }
        ["install"]
        { SkipTests := true, Offline := false, UpdateSnapshots := false, Threads := "2",
          Debug := false, Verbose := false, Quiet := false, Errors := false,
          BatchMode := false, ShowVersion := false } =
      BuildCommand
        { RootPath := "r", PomPath := "r/pom.xml", GroupID := "g", ArtifactID := "a",
          Version := "1", Packaging := "jar", Modules := [], Profiles := [],
          Executable := "mvn", HasSpringBoot := false }
        ["install"]
        { SkipTests := true, Offline := false, UpdateSnapshots := false, Threads := "2",
          Debug := false, Verbose := false, Quiet := false, Errors := false,
          BatchMode := false, ShowVersion := false } :=
  (c9_buildCommand_deterministic
    { RootPath := "r", PomPath := "r/pom.xml", GroupID := "g", ArtifactID := "a",
      Version := "1", Packaging := "jar", Modules := [], Profiles := [],
      Executable := "mvn", HasSpringBoot := false }
    { RootPath := "r", PomPath := "r/pom.xml", GroupID := "g", ArtifactID := "a",
      Version := "1", Packaging := "jar", Modules := [], Profiles := [],
      Executable := "mvn", HasSpringBoot := false }
    ["install"] ["install"]
    { SkipTests := true, Offline := false, UpdateSnapshots := false, Threads := "2",
      Debug := false, Verbose := false, Quiet := false, Errors := false,
      BatchMode := false, ShowVersion := false }
    { SkipTests := true, Offline := false, UpdateSnapshots := false, Threads := "2",
      Debug := false, Verbose := false, Quiet := false, Errors := false,
      BatchMode := false, ShowVersion := false }
    rfl rfl rfl).1

theorem toggleSelectedAt_length (ms : List MavenModule) (i : Nat) :
    (toggleSelectedAt ms i).length = ms.length := by
  induction ms generalizing i with
  | nil => simp [toggleSelectedAt]
  | cons m rest ih =>
    cases i with
    | zero => simp [toggleSelectedAt]
    | succ j => simp [toggleSelectedAt, ih]

theorem toggleSelectedAt_get_ne (ms : List MavenModule) (i j : Nat) (h : j ≠ i) :
    (toggleSelectedAt ms i).get? j = ms.get? j := by
  induction ms generalizing i j with
  | nil => simp [toggleSelectedAt]
  | cons m rest ih =>
    cases i with
    | zero =>
      cases j with
      | zero => exact absurd rfl h
      | succ k => simp [toggleSelectedAt]
    | succ i2 =>
      cases j with
      | zero => simp [toggleSelectedAt]
      | succ k =>
        simp only [toggleSelectedAt, List.get?_cons_succ]
        exact ih i2 k (fun hk => h (congrArg Nat.succ hk))

theorem toggleSelectedAt_get_eq (ms : List MavenModule) (i : Nat)
    (h : i < ms.length) :
    ∃ m, ms.get? i = some m ∧
      (toggleSelectedAt ms i).get? i = some { m with Selected := !m.Selected } := by
  induction ms generalizing i with
  | nil => simp at h
  | cons m rest ih =>
    cases i with
    | zero => exact ⟨m, rfl, rfl⟩
    | succ j =>
      simp only [toggleSelectedAt, List.get?_cons_succ]
      exact ih j (Nat.lt_of_succ_lt_succ h)

theorem toggleEnabledAt_length (ps : List MavenProfile) (i : Nat) :
    (toggleEnabledAt ps i).length = ps.length := by
  induction ps generalizing i with
  | nil => simp [toggleEnabledAt]
  | cons pr rest ih =>
    cases i with
    | zero => simp [toggleEnabledAt]
    | succ j => simp [toggleEnabledAt, ih]

theorem toggleEnabledAt_get_ne (ps : List MavenProfile) (i j : Nat) (h : j ≠ i) :
    (toggleEnabledAt ps i).get? j = ps.get? j := by
  induction ps generalizing i j with
  | nil => simp [toggleEnabledAt]
  | cons pr rest ih =>
    cases i with
    | zero =>
      cases j with
      | zero => exact absurd rfl h
      | succ k => simp [toggleEnabledAt]
    | succ i2 =>
      cases j with
      | zero => simp [toggleEnabledAt]
      | succ k =>
        simp only [toggleEnabledAt, List.get?_cons_succ]
        exact ih i2 k (fun hk => h (congrArg Nat.succ hk))

theorem toggleEnabledAt_get_eq (ps : List MavenProfile) (i : Nat)
    (h : i < ps.length) :
    ∃ pr, ps.get? i = some pr ∧
      (toggleEnabledAt ps i).get? i = some { pr with Enabled := !pr.Enabled } := by
  induction ps generalizing i with
  | nil => simp at h
  | cons pr rest ih =>
    cases i with
    | zero => exact ⟨pr, rfl, rfl⟩
    | succ j =>
      simp only [toggleEnabledAt, List.get?_cons_succ]
      exact ih j (Nat.lt_of_succ_lt_succ h)

/-- C10: `ToggleModule i` changes at most the `Selected` flag of the module
at position `i`: out-of-range indices (negative included) leave the project
completely unchanged, and in-range ones negate exactly that flag while every
other module, every profile and every scalar field of the project is
untouched; `ToggleProfile` satisfies the same property for the `Enabled`
flag at position `i`. -/
theorem c10_toggle_frame (p : Project) (i : Int) :
    ((¬(0 ≤ i ∧ i < (p.Modules.length : Int))) → ToggleModule p i = p) ∧
      ((0 ≤ i ∧ i < (p.Modules.length : Int)) →
        ((ToggleModule p i).RootPath = p.RootPath ∧
          (ToggleModule p i).PomPath = p.PomPath ∧
          (ToggleModule p i).GroupID = p.GroupID ∧
          (ToggleModule p i).ArtifactID = p.ArtifactID ∧
          (ToggleModule p i).Version = p.Version ∧
          (ToggleModule p i).Packaging = p.Packaging ∧
          (ToggleModule p i).Profiles = p.Profiles ∧
          (ToggleModule p i).Executable = p.Executable ∧
          (ToggleModule p i).HasSpringBoot = p.HasSpringBoot) ∧
        (ToggleModule p i).Modules.length = p.Modules.length ∧
        (∀ j : Nat, j ≠ i.toNat →
          (ToggleModule p i).Modules.get? j = p.Modules.get? j) ∧
        (∃ m, p.Modules.get? i.toNat = some m ∧
          (ToggleModule p i).Modules.get? i.toNat =
            some { m with Selected := !m.Selected })) ∧
      ((¬(0 ≤ i ∧ i < (p.Profiles.length : Int))) → ToggleProfile p i = p) ∧
      ((0 ≤ i ∧ i < (p.Profiles.length : Int)) →
        ((ToggleProfile p i).RootPath = p.RootPath ∧
          (ToggleProfile p i).Modules = p.Modules ∧
          (ToggleProfile p i).Executable = p.Executable) ∧
        (ToggleProfile p i).Profiles.length = p.Profiles.length ∧
        (∀ j : Nat, j ≠ i.toNat →
          (ToggleProfile p i).Profiles.get? j = p.Profiles.get? j) ∧
        (∃ pr, p.Profiles.get? i.toNat = some pr ∧
          (ToggleProfile p i).Profiles.get? i.toNat =
            some { pr with Enabled := !pr.Enabled })) := by
  refine ⟨?_, ?_, ?_, ?_⟩
  · intro h
    simp [ToggleModule, h]
  · intro h
    have hbound : i.toNat < p.Modules.length := by omega
    unfold ToggleModule
    rw [if_pos h]
    exact ⟨⟨rfl, rfl, rfl, rfl, rfl, rfl, rfl, rfl, rfl⟩,
      toggleSelectedAt_length p.Modules i.toNat,
      fun j hj => toggleSelectedAt_get_ne p.Modules i.toNat j hj,
      toggleSelectedAt_get_eq p.Modules i.toNat hbound⟩
  · intro h
    simp [ToggleProfile, h]
  · intro h
    have hbound : i.toNat < p.Profiles.length := by omega
    unfold ToggleProfile
    rw [if_pos h]
    exact ⟨⟨rfl, rfl, rfl⟩,
      toggleEnabledAt_length p.Profiles i.toNat,
      fun j hj => toggleEnabledAt_get_ne p.Profiles i.toNat j hj,
      toggleEnabledAt_get_eq p.Profiles i.toNat hbound⟩

/-- C10 witness: on a one-module project, index `-1` is a no-op and index `0`
negates exactly the module's flag. -/
theorem c10_toggle_frame_witness :
    (ToggleModule
        { RootPath := "r", PomPath := "r/pom.xml", GroupID := "g", ArtifactID := "a",
          Version := "1", Packaging := "jar",
          Modules := [{ Name := "m1", Path := "r/m1", Selected := true }],
          Profiles := [], Executable := "mvn", HasSpringBoot := false }
        (-1) =
      { RootPath := "r", PomPath := "r/pom.xml", GroupID := "g", ArtifactID := "a",
        Version := "1", Packaging := "jar",
        Modules := [{ Name := "m1", Path := "r/m1", Selected := true }],
        Profiles := [], Executable := "mvn", HasSpringBoot := false }) ∧
    (∃ m, ({ RootPath := "r", PomPath := "r/pom.xml", GroupID := "g", ArtifactID := "a",
             Version := "1", Packaging := "jar",
             Modules := [{ Name := "m1", Path := "r/m1", Selected := true }],
             Profiles := [], Executable := "mvn", HasSpringBoot := false } :
            Project).Modules.get? 0 = some m ∧
      (ToggleModule
        { RootPath := "r", PomPath := "r/pom.xml", GroupID := "g", ArtifactID := "a",
          Version := "1", Packaging := "jar",
          Modules := [{ Name := "m1", Path := "r/m1", Selected := true }],
          Profiles := [], Executable := "mvn", HasSpringBoot := false }
        0).Modules.get? 0 = some { m with Selected := !m.Selected }) :=
  ⟨(c10_toggle_frame
      { RootPath := "r", PomPath := "r/pom.xml", GroupID := "g", ArtifactID := "a",
        Version := "1", Packaging := "jar",
        Modules := [{ Name := "m1", Path := "r/m1", Selected := true }],
        Profiles := [], Executable := "mvn", HasSpringBoot := false }
      (-1)).1 (by decide),
    ((c10_toggle_frame
      { RootPath := "r", PomPath := "r/pom.xml", GroupID := "g", ArtifactID := "a",
        Version := "1", Packaging := "jar",
        Modules := [{ Name := "m1", Path := "r/m1", Selected := true }],
        Profiles := [], Executable := "mvn", HasSpringBoot := false }
      0).2.1 ⟨by decide, by decide⟩).2.2.2⟩

/-- C7: the `Error` field of an `ExecutionResult` is set only for
execution-machinery failures (pipe setup, spawn, or a wait error that is
not an exit-status error).  A child process that runs and exits non-zero
yields that status in `ExitCode` with `Error = none`; a clean zero exit
yields `ExitCode = 0` and `Error = none`; each machinery-failure outcome is
the only way `Error` becomes set, for both `Execute` and
`ExecuteInteractive`. -/
theorem c7_error_vs_exit_code (cmd : Command) (st dur : Int)
    (lines : List String) (c : Int) (e : String) :
    ((Execute cmd st (.ran (.exitError c) lines dur)).1.ExitCode = c ∧
      (Execute cmd st (.ran (.exitError c) lines dur)).1.Error = none) ∧
    ((Execute cmd st (.ran .success lines dur)).1.ExitCode = 0 ∧
      (Execute cmd st (.ran .success lines dur)).1.Error = none) ∧
    ((Execute cmd st (.stdoutPipeErr e)).1.Error = some e) ∧
    ((Execute cmd st (.stderrPipeErr e)).1.Error = some e) ∧
    ((Execute cmd st (.startErr e)).1.Error = some e) ∧
    ((Execute cmd st (.ran (.otherErr e) lines dur)).1.Error = some e) ∧
    ((ExecuteInteractive cmd st (.exitError c) dur).1.ExitCode = c ∧
      (ExecuteInteractive cmd st (.exitError c) dur).1.Error = none) ∧
    ((ExecuteInteractive cmd st .success dur).1.ExitCode = 0 ∧
      (ExecuteInteractive cmd st .success dur).1.Error = none) ∧
    ((ExecuteInteractive cmd st (.otherErr e) dur).1.Error = some e) :=
  ⟨⟨rfl, rfl⟩, ⟨rfl, rfl⟩, rfl, rfl, rfl, rfl, ⟨rfl, rfl⟩, ⟨rfl, rfl⟩, rfl⟩

theorem isSpaceGo_not_alpha (c : Char) (h : isSpaceGo c = true) :
    isAlphaGo c = false := by
  simp only [isSpaceGo, decide_eq_true_eq] at h
  simp only [isAlphaGo, decide_eq_false_iff_not]
  omega

theorem isSpaceGo_not_digit (c : Char) (h : isSpaceGo c = true) :
    isDigitGo c = false := by
  simp only [isSpaceGo, decide_eq_true_eq] at h
  simp only [isDigitGo, decide_eq_false_iff_not]
  omega

theorem isSpaceGo_not_idChar (c : Char) (h : isSpaceGo c = true) :
    isIdChar c = false := by
  simp only [isIdChar, Bool.or_eq_false_iff]
  refine ⟨⟨⟨⟨isSpaceGo_not_alpha c h, isSpaceGo_not_digit c h⟩, ?_⟩, ?_⟩, ?_⟩ <;>
    · simp only [isSpaceGo, decide_eq_true_eq] at h
      simp only [decide_eq_false_iff_not]
      omega

theorem isDigitGo_not_alpha (c : Char) (h : isDigitGo c = true) :
    isAlphaGo c = false := by
  simp only [isDigitGo, decide_eq_true_eq] at h
  simp only [isAlphaGo, decide_eq_false_iff_not]
  omega

/-- Sanity check of the group-pattern recognizer: the language recognized is
closed under one application of the regex's trailing `(\.segment)*` group,
so the simplified recognizer misses none of the words the full regex
accepts. -/
theorem groupIDMatches_append_dot (a b : List Char)
    (ha : artifactIDMatches a = true) (hb : artifactIDMatches b = true) :
    groupIDMatches (a ++ Char.ofNat 46 :: b) = true := by
  cases a with
  | nil => simp [artifactIDMatches] at ha
  | cons c cs =>
    cases b with
    | nil => simp [artifactIDMatches] at hb
    | cons d ds =>
      simp only [artifactIDMatches, Bool.and_eq_true, List.all_eq_true] at ha hb
      simp only [List.cons_append, groupIDMatches, Bool.and_eq_true,
        List.all_eq_true]
      refine ⟨ha.1, ?_⟩
      intro x hx
      rcases List.mem_append.mp hx with hx | hx
      · exact ha.2 x hx
      · rcases List.mem_cons.mp hx with hx | hx
        · subst hx
          rfl
        · rcases List.mem_cons.mp hx with hx | hx
          · subst hx
            simp only [isIdChar, Bool.or_eq_true]
            exact Or.inl (Or.inl (Or.inl (Or.inl hb.1)))
          · exact hb.2 x hx

theorem dropWhile_append_of_all (p : Char → Bool) (w s : List Char)
    (hw : ∀ c ∈ w, p c = true) :
    (w ++ s).dropWhile p = s.dropWhile p := by
  induction w with
  | nil => simp
  | cons a rest ih =>
    have ha : p a = true := hw a (List.mem_cons_self a rest)
    simp only [List.cons_append, List.dropWhile_cons, ha, if_true]
    exact ih (fun c hc => hw c (List.mem_cons_of_mem a hc))

theorem dropWhile_eq_nil_of_all (p : Char → Bool) (w : List Char)
    (hw : ∀ c ∈ w, p c = true) : w.dropWhile p = [] := by
  have := dropWhile_append_of_all p w [] hw
  simpa using this

theorem dropWhile_append_split (p : Char → Bool) (s t : List Char) :
    (s ++ t).dropWhile p =
      if s.dropWhile p = [] then t.dropWhile p else s.dropWhile p ++ t := by
  induction s with
  | nil => simp
  | cons a rest ih =>
    by_cases ha : p a = true
    · simpa [List.dropWhile_cons, ha] using ih
    · simp [List.dropWhile_cons, ha]

theorem trimLeft_pad (w s : List Char) (hw : ∀ c ∈ w, isSpaceGo c = true) :
    trimLeftGo (w ++ s) = trimLeftGo s :=
  dropWhile_append_of_all isSpaceGo w s hw

theorem trimRight_pad (s w : List Char) (hw : ∀ c ∈ w, isSpaceGo c = true) :
    trimRightGo (s ++ w) = trimRightGo s := by
  unfold trimRightGo
  rw [List.reverse_append,
    dropWhile_append_of_all isSpaceGo w.reverse s.reverse
      (fun c hc => hw c (List.mem_reverse.mp hc))]

/-- Padding a string with whitespace on both sides does not change its
trimmed value. -/
theorem trimSpace_pad (w1 s w2 : List Char)
    (h1 : ∀ c ∈ w1, isSpaceGo c = true) (h2 : ∀ c ∈ w2, isSpaceGo c = true) :
    trimSpaceGo (w1 ++ s ++ w2) = trimSpaceGo s := by
  unfold trimSpaceGo
  rw [List.append_assoc, trimLeft_pad w1 (s ++ w2) h1]
  unfold trimLeftGo
  rw [dropWhile_append_split isSpaceGo s w2]
  split
  · rename_i hnil
    rw [dropWhile_eq_nil_of_all isSpaceGo w2 h2]
    unfold trimRightGo
    rw [hnil]
  · exact trimRight_pad (s.dropWhile isSpaceGo) w2 h2

/-- The three-branch identifier check (required / no spaces / pattern) never
returns an empty list when the value contains a whitespace character. -/
theorem identifier_check_ne_of_space (v : List Char) (m1 m2 m3 : String)
    (ch : Char) (hm : ch ∈ v) (hs : isSpaceGo ch = true) :
    (if v = [] then [m1]
      else if containsSpace v = true then [m2]
      else if artifactIDMatches v = false then [m3]
      else ([] : List String)) ≠ [] := by
  have hv : v ≠ [] := List.ne_nil_of_mem hm
  rw [if_neg hv]
  by_cases hcs : containsSpace v = true
  · simp [hcs]
  · rw [if_neg hcs]
    have hmatch : artifactIDMatches v = false := by
      cases v with
      | nil => exact absurd rfl hv
      | cons c cs =>
        by_contra hne
        have htrue : artifactIDMatches (c :: cs) = true := by
          cases h : artifactIDMatches (c :: cs)
          · exact absurd h hne
          · rfl
        simp only [artifactIDMatches, Bool.and_eq_true, List.all_eq_true] at htrue
        rcases List.mem_cons.mp hm with hm | hm
        · subst hm
          rw [isSpaceGo_not_alpha ch hs] at htrue
          exact Bool.false_ne_true htrue.1
        · have := htrue.2 ch hm
          rw [isSpaceGo_not_idChar ch hs] at this
          exact Bool.false_ne_true this
    simp [hmatch]

/-- The same check never returns an empty list when the value starts with a
digit. -/
theorem identifier_check_ne_of_digit (v : List Char) (m1 m2 m3 : String)
    (d : Char) (rest : List Char) (hv : v = d :: rest) (hd : isDigitGo d = true) :
    (if v = [] then [m1]
      else if containsSpace v = true then [m2]
      else if artifactIDMatches v = false then [m3]
      else ([] : List String)) ≠ [] := by
  subst hv
  rw [if_neg (List.cons_ne_nil d rest)]
  by_cases hcs : containsSpace (d :: rest) = true
  · simp [hcs]
  · rw [if_neg hcs]
    have hmatch : artifactIDMatches (d :: rest) = false := by
      simp only [artifactIDMatches, Bool.and_eq_false_iff]
      exact Or.inl (isDigitGo_not_alpha d hd)
    simp [hmatch]

/-- Padding every input of the project-creation wizard with whitespace
leaves the validation result unchanged. -/
theorem pcErrors_pad_eq (pc : ProjectCreationInputs)
    (a1 b1 a2 b2 a3 b3 a4 b4 a5 b5 : List Char)
    (h1 : ∀ c ∈ a1, isSpaceGo c = true) (h2 : ∀ c ∈ b1, isSpaceGo c = true)
    (h3 : ∀ c ∈ a2, isSpaceGo c = true) (h4 : ∀ c ∈ b2, isSpaceGo c = true)
    (h5 : ∀ c ∈ a3, isSpaceGo c = true) (h6 : ∀ c ∈ b3, isSpaceGo c = true)
    (h7 : ∀ c ∈ a4, isSpaceGo c = true) (h8 : ∀ c ∈ b4, isSpaceGo c = true)
    (h9 : ∀ c ∈ a5, isSpaceGo c = true) (h10 : ∀ c ∈ b5, isSpaceGo c = true) :
    GetValidationErrorsPC
        { folderName := a1 ++ pc.folderName ++ b1,
          organization := a2 ++ pc.organization ++ b2,
          projectID := a3 ++ pc.projectID ++ b3,
          version := a4 ++ pc.version ++ b4,
          basePackage := a5 ++ pc.basePackage ++ b5 } =
      GetValidationErrorsPC pc := by
  have e1 := trimSpace_pad a1 pc.folderName b1 h1 h2
  have e2 := trimSpace_pad a2 pc.organization b2 h3 h4
  have e3 := trimSpace_pad a3 pc.projectID b3 h5 h6
  have e4 := trimSpace_pad a4 pc.version b4 h7 h8
  have e5 := trimSpace_pad a5 pc.basePackage b5 h9 h10
  simp only [GetValidationErrorsPC, pcFolderNameErrors, pcOrganizationErrors,
    pcProjectIDErrors, pcVersionErrors, pcBasePackageErrors]
  rw [e1, e2, e3, e4, e5]

/-- Padding every input of the module-creation wizard with whitespace leaves
the validation result unchanged. -/
theorem mcErrors_pad_eq (mc : ModuleCreationInputs)
    (c1 d1 c2 d2 c3 d3 c4 d4 : List Char)
    (h1 : ∀ c ∈ c1, isSpaceGo c = true) (h2 : ∀ c ∈ d1, isSpaceGo c = true)
    (h3 : ∀ c ∈ c2, isSpaceGo c = true) (h4 : ∀ c ∈ d2, isSpaceGo c = true)
    (h5 : ∀ c ∈ c3, isSpaceGo c = true) (h6 : ∀ c ∈ d3, isSpaceGo c = true)
    (h7 : ∀ c ∈ c4, isSpaceGo c = true) (h8 : ∀ c ∈ d4, isSpaceGo c = true) :
    GetValidationErrorsMC
        { moduleName := c1 ++ mc.moduleName ++ d1,
          organization := c2 ++ mc.organization ++ d2,
          moduleID := c3 ++ mc.moduleID ++ d3,
          version := c4 ++ mc.version ++ d4 } =
      GetValidationErrorsMC mc := by
  have e1 := trimSpace_pad c1 mc.moduleName d1 h1 h2
  have e2 := trimSpace_pad c2 mc.organization d2 h3 h4
  have e3 := trimSpace_pad c3 mc.moduleID d3 h5 h6
  simp only [GetValidationErrorsMC, mcModuleNameErrors, mcOrganizationErrors,
    mcModuleIDErrors]
  rw [e1, e2, e3]

theorem pc_errors_ne_of_projectID (pc : ProjectCreationInputs)
    (h : pcProjectIDErrors pc ≠ []) : GetValidationErrorsPC pc ≠ [] := by
  unfold GetValidationErrorsPC
  simp only [ne_eq, List.append_eq_nil]
  tauto

theorem mc_errors_ne_of_moduleName (mc : ModuleCreationInputs)
    (h : mcModuleNameErrors mc ≠ []) : GetValidationErrorsMC mc ≠ [] := by
  unfold GetValidationErrorsMC
  simp only [ne_eq, List.append_eq_nil]
  tauto

/-- C8: the wizard validation (a) rejects any identifier field (Project ID,
Module Name) whose trimmed value contains a whitespace character, (b)
rejects any such field whose trimmed value starts with a digit, and (c) is
invariant under prepending and appending whitespace to every field value, so
a successfully validating assignment still validates after padding. -/
theorem c8_wizard_validation (pc : ProjectCreationInputs)
    (mc : ModuleCreationInputs)
    (a1 b1 a2 b2 a3 b3 a4 b4 a5 b5 c1 d1 c2 d2 c3 d3 c4 d4 : List Char)
    (hpad : ∀ c ∈ a1 ++ b1 ++ a2 ++ b2 ++ a3 ++ b3 ++ a4 ++ b4 ++ a5 ++ b5 ++
      c1 ++ d1 ++ c2 ++ d2 ++ c3 ++ d3 ++ c4 ++ d4, isSpaceGo c = true) :
    ((∃ ch ∈ trimSpaceGo pc.projectID, isSpaceGo ch = true) →
        GetValidationErrorsPC pc ≠ []) ∧
    (∀ d rest, trimSpaceGo pc.projectID = d :: rest → isDigitGo d = true →
        GetValidationErrorsPC pc ≠ []) ∧
    ((∃ ch ∈ trimSpaceGo mc.moduleName, isSpaceGo ch = true) →
        GetValidationErrorsMC mc ≠ []) ∧
    (∀ d rest, trimSpaceGo mc.moduleName = d :: rest → isDigitGo d = true →
        GetValidationErrorsMC mc ≠ []) ∧
    (GetValidationErrorsPC pc = [] →
      GetValidationErrorsPC
        { folderName := a1 ++ pc.folderName ++ b1,
          organization := a2 ++ pc.organization ++ b2,
          projectID := a3 ++ pc.projectID ++ b3,
          version := a4 ++ pc.version ++ b4,
          basePackage := a5 ++ pc.basePackage ++ b5 } = []) ∧
    (GetValidationErrorsMC mc = [] →
      GetValidationErrorsMC
        { moduleName := c1 ++ mc.moduleName ++ d1,
          organization := c2 ++ mc.organization ++ d2,
          moduleID := c3 ++ mc.moduleID ++ d3,
          version := c4 ++ mc.version ++ d4 } = []) := by
  have hsub : ∀ (w : List Char), (∀ x, x ∈ w →
      x ∈ a1 ++ b1 ++ a2 ++ b2 ++ a3 ++ b3 ++ a4 ++ b4 ++ a5 ++ b5 ++
        c1 ++ d1 ++ c2 ++ d2 ++ c3 ++ d3 ++ c4 ++ d4) →
      ∀ c ∈ w, isSpaceGo c = true :=
    fun w hw c hc => hpad c (hw c hc)
  refine ⟨?_, ?_, ?_, ?_, ?_, ?_⟩
  · rintro ⟨ch, hm, hs⟩
    apply pc_errors_ne_of_projectID
    simpa only [pcProjectIDErrors] using
      identifier_check_ne_of_space (trimSpaceGo pc.projectID) _ _ _ ch hm hs
  · intro d rest hv hd
    apply pc_errors_ne_of_projectID
    simpa only [pcProjectIDErrors] using
      identifier_check_ne_of_digit (trimSpaceGo pc.projectID) _ _ _ d rest hv hd
  · rintro ⟨ch, hm, hs⟩
    apply mc_errors_ne_of_moduleName
    simpa only [mcModuleNameErrors] using
      identifier_check_ne_of_space (trimSpaceGo mc.moduleName) _ _ _ ch hm hs
  · intro d rest hv hd
    apply mc_errors_ne_of_moduleName
    simpa only [mcModuleNameErrors] using
      identifier_check_ne_of_digit (trimSpaceGo mc.moduleName) _ _ _ d rest hv hd
  · intro hok
    rw [pcErrors_pad_eq pc a1 b1 a2 b2 a3 b3 a4 b4 a5 b5
      (hsub a1 (by intro x hx; simp [hx]))
      (hsub b1 (by intro x hx; simp [hx]))
      (hsub a2 (by intro x hx; simp [hx]))
      (hsub b2 (by intro x hx; simp [hx]))
      (hsub a3 (by intro x hx; simp [hx]))
      (hsub b3 (by intro x hx; simp [hx]))
      (hsub a4 (by intro x hx; simp [hx]))
      (hsub b4 (by intro x hx; simp [hx]))
      (hsub a5 (by intro x hx; simp [hx]))
      (hsub b5 (by intro x hx; simp [hx]))]
    exact hok
  · intro hok
    rw [mcErrors_pad_eq mc c1 d1 c2 d2 c3 d3 c4 d4
      (hsub c1 (by intro x hx; simp [hx]))
      (hsub d1 (by intro x hx; simp [hx]))
      (hsub c2 (by intro x hx; simp [hx]))
      (hsub d2 (by intro x hx; simp [hx]))
      (hsub c3 (by intro x hx; simp [hx]))
      (hsub d3 (by intro x hx; simp [hx]))
      (hsub c4 (by intro x hx; simp [hx]))
      (hsub d4 (by intro x hx; simp [hx]))]
    exact hok

/-- C8 witness: a Project ID containing a space is rejected, a Module Name
starting with a digit is rejected, and a fully valid assignment still
validates after whitespace padding of every field. -/
theorem c8_wizard_validation_witness :
    (GetValidationErrorsPC
      { folderName := "my-app".data, organization := "com.example".data,
        projectID := "a b".data, version := "1.0-SNAPSHOT".data,
        basePackage := "com.example".data } ≠ []) ∧
    (GetValidationErrorsMC
      { moduleName := "2-code".data, organization := "com.example".data,
        moduleID := [], version := [] } ≠ []) ∧
    (GetValidationErrorsPC
      { folderName := [Char.ofNat 32] ++ "my-app".data ++ [Char.ofNat 32],
        organization := [Char.ofNat 32] ++ "com.example".data ++ [Char.ofNat 9],
        projectID := [Char.ofNat 9] ++ "my-app".data ++ [Char.ofNat 32],
        version := [Char.ofNat 32] ++ "1.0-SNAPSHOT".data ++ [Char.ofNat 32],
        basePackage := [Char.ofNat 32] ++ "com.example".data ++ [Char.ofNat 32] }
      = []) :=
  ⟨(c8_wizard_validation
      { folderName := "my-app".data, organization := "com.example".data,
        projectID := "a b".data, version := "1.0-SNAPSHOT".data,
        basePackage := "com.example".data }
      { moduleName := [], organization := [], moduleID := [], version := [] }
      [] [] [] [] [] [] [] [] [] [] [] [] [] [] [] [] [] []
      (by simp)).1
      ⟨Char.ofNat 32, by decide, by decide⟩,
    (c8_wizard_validation
      { folderName := [], organization := [], projectID := [], version := [],
        basePackage := [] }
      { moduleName := "2-code".data, organization := "com.example".data,
        moduleID := [], version := [] }
      [] [] [] [] [] [] [] [] [] [] [] [] [] [] [] [] [] []
      (by simp)).2.2.2.1
      (Char.ofNat 50) "-code".data (by decide) (by decide),
    (c8_wizard_validation
      { folderName := "my-app".data, organization := "com.example".data,
        projectID := "my-app".data, version := "1.0-SNAPSHOT".data,
        basePackage := "com.example".data }
      { moduleName := [], organization := [], moduleID := [], version := [] }
      [Char.ofNat 32] [Char.ofNat 32] [Char.ofNat 32] [Char.ofNat 9]
      [Char.ofNat 9] [Char.ofNat 32] [Char.ofNat 32] [Char.ofNat 32]
      [Char.ofNat 32] [Char.ofNat 32] [] [] [] [] [] [] [] []
      (by decide)).2.2.2.2.1
      (by decide)⟩

theorem postCreationSteps_running (m : Model) (pc : ProjectCreation)
    (fx : FsEffects) : (postCreationSteps m pc fx).running = m.running := by
  unfold postCreationSteps
  dsimp only
  repeat' split
  all_goals rfl

theorem postCreationSteps_history (m : Model) (pc : ProjectCreation)
    (fx : FsEffects) : (postCreationSteps m pc fx).history = m.history := by
  unfold postCreationSteps
  dsimp only
  repeat' split
  all_goals rfl

theorem postCreationSteps_currentView (m : Model) (pc : ProjectCreation)
    (fx : FsEffects) : (postCreationSteps m pc fx).currentView = m.currentView := by
  unfold postCreationSteps
  dsimp only
  repeat' split
  all_goals rfl

theorem postCreationSteps_logBuffer (m : Model) (pc : ProjectCreation)
    (fx : FsEffects) :
    ∃ extra, (postCreationSteps m pc fx).logBuffer = m.logBuffer ++ extra := by
  unfold postCreationSteps
  dsimp only
  repeat' split
  all_goals (simp only [List.append_assoc]; exact ⟨_, rfl⟩)

theorem postModuleSteps_running (m : Model) (fx : FsEffects) :
    (postModuleSteps m fx).running = m.running := by
  unfold postModuleSteps
  dsimp only
  repeat' split
  all_goals rfl

theorem postModuleSteps_history (m : Model) (fx : FsEffects) :
    (postModuleSteps m fx).history = m.history := by
  unfold postModuleSteps
  dsimp only
  repeat' split
  all_goals rfl

theorem postModuleSteps_currentView (m : Model) (fx : FsEffects) :
    (postModuleSteps m fx).currentView = m.currentView := by
  unfold postModuleSteps
  dsimp only
  repeat' split
  all_goals rfl

theorem postModuleSteps_logBuffer (m : Model) (fx : FsEffects) :
    ∃ extra, (postModuleSteps m fx).logBuffer = m.logBuffer ++ extra := by
  unfold postModuleSteps
  dsimp only
  repeat' split
  all_goals (simp only [List.append_assoc]; exact ⟨_, rfl⟩)

theorem handlePostExecution_running (m : Model) (r : ExecutionResult)
    (fx : FsEffects) : (handlePostExecution m r fx).running = m.running := by
  unfold handlePostExecution
  repeat' split
  all_goals first
    | rfl
    | apply postCreationSteps_running
    | apply postModuleSteps_running

theorem handlePostExecution_history (m : Model) (r : ExecutionResult)
    (fx : FsEffects) : (handlePostExecution m r fx).history = m.history := by
  unfold handlePostExecution
  repeat' split
  all_goals first
    | rfl
    | apply postCreationSteps_history
    | apply postModuleSteps_history

theorem handlePostExecution_currentView (m : Model) (r : ExecutionResult)
    (fx : FsEffects) : (handlePostExecution m r fx).currentView = m.currentView := by
  unfold handlePostExecution
  repeat' split
  all_goals first
    | apply postCreationSteps_currentView
    | apply postModuleSteps_currentView
    | rfl

theorem handlePostExecution_logBuffer (m : Model) (r : ExecutionResult)
    (fx : FsEffects) :
    ∃ extra, (handlePostExecution m r fx).logBuffer = m.logBuffer ++ extra := by
  unfold handlePostExecution
  repeat' split
  all_goals first
    | apply postCreationSteps_logBuffer
    | apply postModuleSteps_logBuffer
    | exact ⟨[], by simp⟩

theorem handleExecutionComplete_eq (m : Model) (r : ExecutionResult)
    (fx : FsEffects) :
    handleExecutionComplete m r fx =
      handlePostExecution
        { m with
          running := false,
          lastResult := some r,
          history := m.history ++ [r],
          currentView := ViewMode.ViewLogs,
          logBuffer := m.logBuffer ++ r.Output ++ executionErrorLines r ++
            ["", completionLine r] }
        r fx := by
  unfold handleExecutionComplete executionErrorLines
  cases hE : r.Error <;> simp [List.append_assoc]

/-- C2: processing an execution-completed event clears `running`, appends
the result as the new last history entry (leaving prior entries unchanged),
appends the captured output lines — plus the error lines when `Error` is
set and a completion summary built from the exit code and duration — to the
log buffer, and forces the Logs screen, whatever screen was active and
whatever the file-system side effects of the post-processing blocks do
(the `extra` lines are whatever those blocks append afterwards). -/
theorem c2_completion_event (m : Model) (r : ExecutionResult) (fx : FsEffects) :
    (handleExecutionComplete m r fx).running = false ∧
    (handleExecutionComplete m r fx).history = m.history ++ [r] ∧
    (handleExecutionComplete m r fx).currentView = ViewMode.ViewLogs ∧
    ∃ extra, (handleExecutionComplete m r fx).logBuffer =
      m.logBuffer ++ r.Output ++ executionErrorLines r ++
        ["", completionLine r] ++ extra := by
  rw [handleExecutionComplete_eq]
  refine ⟨?_, ?_, ?_, ?_⟩
  · rw [handlePostExecution_running]
  · rw [handlePostExecution_history]
  · rw [handlePostExecution_currentView]
  · obtain ⟨e2, he⟩ := handlePostExecution_logBuffer
      { m with
        running := false,
        lastResult := some r,
        history := m.history ++ [r],
        currentView := ViewMode.ViewLogs,
        logBuffer := m.logBuffer ++ r.Output ++ executionErrorLines r ++
          ["", completionLine r] } r fx
    exact ⟨e2, by simpa [List.append_assoc] using he⟩

/-- C1 (failing-input evaluation): in a session with `running = true`, the
Main screen active and the tasks pane focused on a valid task, pressing
Enter reaches `executeTask`, which builds a fresh command and hands it back
for execution — a second in-flight execution — because neither `handleEnter`
nor the `enter` case of `Update` checks `running`.  The state is reachable:
the `l` key returns from Logs to Main while a command runs. -/
theorem c1_enter_while_running_starts_second_execution :
    exModelRunning.running = true ∧
    exModelRunning.currentView = ViewMode.ViewMain ∧
    exModelRunning.focusedPane = 1 ∧
    (handleEnter exModelRunning).2 =
      TeaCmd.runMaven (BuildCommand exProjectPlain ["clean"] exOptionsDefault) ∧
    (handleEnter exModelRunning).2 ≠ TeaCmd.none ∧
    (handleEnter exModelRunning).1.running = true := by
  refine ⟨rfl, rfl, rfl, ?_, ?_, ?_⟩ <;> decide

/-- C3 (failing-input evaluation): a set pending side-effect marker
survives the completion of a failed command — with no project-creation
wizard active and exit code 1, neither post-processing block runs and
`pendingModuleName` is left untouched instead of being cleared
(abandoned). -/
theorem c3_pending_marker_survives_failed_command :
    exModelPendingModule.pendingModuleName = "new-mod" ∧
    exFailedResult.ExitCode ≠ 0 ∧
    (handleExecutionComplete exModelPendingModule exFailedResult exFxAllOk
      ).pendingModuleName = "new-mod" := by
  refine ⟨rfl, ?_, ?_⟩ <;> decide
